import Mathlib

/-!
Verification of the scraper repository's core behaviours against its source.

Each section embeds one part of the Python source (file and function names
kept where Lean allows) as executable Lean definitions, and the theorems at
the end of the file settle the specification claims about them.

Conventions used throughout the embedding:
* Python strings are `String`; character-level operations (strip, lower,
  upper, split) are implemented over `List Char` since the inputs are ASCII.
* Python `None`-able values are `Option`; Python "falsy" string checks
  (`if not s`) become `s = ""` because the fields involved default to `""`.
* Python floats in the parsing/confidence code are modelled as `ℚ`; every
  quantity involved is an exact small decimal, so orderings and the
  comparisons the code performs coincide with the float semantics.
* Database tables are lists of rows; SQL unique constraints are explicit
  checks on insert; each ORM commit is the corresponding pure update.
-/

namespace Scraper

/-! ### Character and string helpers (ASCII semantics of the Python code) -/

/-- Python `str.strip()` on a character list: drop whitespace on both ends. -/
def stripChars (s : List Char) : List Char :=
  ((s.dropWhile Char.isWhitespace).reverse.dropWhile Char.isWhitespace).reverse

/-- Python `str.lower()` (ASCII inputs). -/
def lowerChars (s : List Char) : List Char := s.map Char.toLower

/-- Python `str.upper()` (ASCII inputs). -/
def upperChars (s : List Char) : List Char := s.map Char.toUpper

/-- Python `str.replace(old, "")` for a single-character `old`: removes every
occurrence of that character. -/
def removeChar (c : Char) (s : List Char) : List Char := s.filter (· ≠ c)

/-- Python `str.split(sep)` for a single-character separator. -/
def splitOnChar (sep : Char) (s : List Char) : List (List Char) :=
  match s with
  | [] => [[]]
  | c :: rest =>
    let r := splitOnChar sep rest
    if c = sep then [] :: r
    else match r with
      | [] => [[c]]
      | p :: ps => (c :: p) :: ps

/-- Python `needle in hay` substring containment. -/
def containsSub (hay needle : List Char) : Bool :=
  needle.isPrefixOf hay ||
    match hay with
    | [] => false
    | _ :: t => containsSub t needle

/-- `str.strip()` at the `String` level. -/
def strStrip (s : String) : String := ⟨stripChars s.data⟩

/-- `str.lower()` at the `String` level. -/
def strLower (s : String) : String := ⟨lowerChars s.data⟩

/-- `str.upper()` at the `String` level. -/
def strUpper (s : String) : String := ⟨upperChars s.data⟩

/-- ASCII letter test, the regex class `[A-Za-z]`. -/
def isAsciiLetter (c : Char) : Bool :=
  ('A' ≤ c && c ≤ 'Z') || ('a' ≤ c && c ≤ 'z')

/-! ### `app/db/models.py` — table shapes

`Company` rows carry the persisted business columns of `class Company`
(`id`, `created_at`, `updated_at` surrogate/timestamp columns are omitted:
no claim concerns them). `companyTableColumns` lists, by name, every column
actually declared on the `Company` model, and `companyCreateFields` every
field of the `CompanyCreate` pydantic schema (`app/schemas/company.py`);
they witness which attributes exist on the ORM class. -/

structure Company where
  name : String
  domain : String
  website : Option String := none
  industry : Option String := none
  sub_industry : Option String := none
  description : Option String := none
  employee_count_range : Option String := none
  city : Option String := none
  state : Option String := none
  zip_code : Option String := none
  country : String := "US"
  phone : Option String := none
  source : Option String := none
  source_url : Option String := none
  scrape_job_id : Option Nat := none
deriving DecidableEq

/-- The columns declared on `class Company` in `app/db/models.py` (lines 21-44),
in source order. -/
def companyTableColumns : List String :=
  ["id", "name", "domain", "website", "industry", "sub_industry", "description",
   "employee_count_range", "city", "state", "zip_code", "country", "phone",
   "source", "source_url", "created_at", "updated_at", "scrape_job_id"]

/-- The fields of the `CompanyCreate` schema (`app/schemas/company.py` lines 6-24):
`CompanyBase` fields plus `scrape_job_id`. Pydantic drops any other keyword
passed to the constructor. -/
def companyCreateFields : List String :=
  ["name", "domain", "website", "industry", "sub_industry", "description",
   "employee_count_range", "city", "state", "zip_code", "country", "phone",
   "source", "source_url", "scrape_job_id"]

/-- The `Company` attributes read by `_phase_data_enrichment`
(`app/scraper/engine.py` lines 423-425) before deciding whether to enrich. -/
def phaseDataEnrichmentReadAttrs : List String :=
  ["estimated_revenue", "employee_count", "state"]

/-- The `Company` attributes written by `_phase_data_enrichment`
(`app/scraper/engine.py` lines 435-444) when persisting enrichment results. -/
def phaseDataEnrichmentWriteAttrs : List String :=
  ["estimated_revenue", "revenue_source", "employee_count",
   "employee_count_range", "state", "city"]

/-- Python `getattr` on a `Company` ORM instance: accessing a name that is not
a declared column raises `AttributeError` (modelled as `none`). -/
def companyGetattrOk (attr : String) : Bool :=
  companyTableColumns.contains attr

/-! ### `app/services/company_service.py` — company persistence -/

/-- `CompanyCreate` payload: same persisted fields (see `companyCreateFields`);
`create_company` builds a `Company` row from it via `model_dump`. -/
abbrev CompanyCreate := Company

/-- `get_company_by_domain` (lines 124-126): `SELECT ... WHERE domain = ...`
with `scalar_one_or_none`. Under the domain-uniqueness invariant at most one
row matches, so the first match models the query. -/
def get_company_by_domain (db : List Company) (domain : String) : Option Company :=
  db.find? (fun c => c.domain == domain)

/-- `create_company` (lines 129-137): return the existing row for the domain
if any, otherwise insert a new row built from the payload. -/
def create_company (db : List Company) (data : CompanyCreate) :
    Company × List Company :=
  match get_company_by_domain db data.domain with
  | some existing => (existing, db)
  | none => (data, db ++ [data])

/-- A sequence of `create_company` calls, returning the final table. -/
def runCreateCompanies (db : List Company) (calls : List CompanyCreate) :
    List Company :=
  match calls with
  | [] => db
  | d :: rest => runCreateCompanies (create_company db d).2 rest

/-- The `domain` column is `unique=True` (`models.py` line 26): no two rows
share a domain. -/
def uniqueDomains (db : List Company) : Prop :=
  db.Pairwise (fun a b => a.domain ≠ b.domain)

/-! ### `app/routers/jobs.py` — job state machine endpoints

Each endpoint looks the job up (404 when absent) and otherwise validates the
current `status` string. The result is the job's new status on success, or
the HTTP error code raised. -/

/-- `pause_job` (lines 87-98): 404 when the job is missing, 400 unless the
status is `running`, else the job becomes `paused`. -/
def pause_job (job : Option String) : Except Nat String :=
  match job with
  | none => .error 404
  | some status => if status ≠ "running" then .error 400 else .ok "paused"

/-- `resume_job` (lines 101-112): 404 when missing, 400 unless `paused`,
else the job becomes `running`. -/
def resume_job (job : Option String) : Except Nat String :=
  match job with
  | none => .error 404
  | some status => if status ≠ "paused" then .error 400 else .ok "running"

/-- `cancel_job` (lines 129-142): 404 when missing, 400 when the status is
already `completed` or `cancelled`, else the job becomes `cancelled`. -/
def cancel_job (job : Option String) : Except Nat String :=
  match job with
  | none => .error 404
  | some status =>
    if status = "completed" ∨ status = "cancelled" then .error 400
    else .ok "cancelled"

/-- Whether an endpoint call succeeded. -/
def endpointOk (r : Except Nat String) : Bool :=
  match r with
  | .ok _ => true
  | .error _ => false

/-! ### `app/services/company_service.py` — revenue brackets -/

/-- `REVENUE_BRACKETS` (lines 9-18): bracket name ↦ (low, high) bounds. -/
def REVENUE_BRACKETS : List (String × Option ℚ × Option ℚ) :=
  [("under_1m", (none, some 1000000)),
   ("1m_10m", (some 1000000, some 10000000)),
   ("10m_50m", (some 10000000, some 50000000)),
   ("50m_100m", (some 50000000, some 100000000)),
   ("100m_200m", (some 100000000, some 200000000)),
   ("200m_500m", (some 200000000, some 500000000)),
   ("500m_1b", (some 500000000, some 1000000000)),
   ("over_1b", (some 1000000000, none))]

/-- Value of a nonempty digit run, as Python reads decimal digits. -/
def digitsVal (ds : List Char) : Nat :=
  ds.foldl (fun a c => 10 * a + (c.toNat - '0'.toNat)) 0

/-- Python `float(s)` for a string of digits and dots (the only shape the
revenue regex group can take): `none` models the `ValueError` raised on
shapes like `"1.2.3"` or `"."`. -/
def pyDecimal (ds : List Char) : Option ℚ :=
  let ip := ds.takeWhile (· ≠ '.')
  let rest := ds.dropWhile (· ≠ '.')
  match rest with
  | [] => if ip = [] then none else some (digitsVal ip)
  | _ :: fp =>
    if fp.contains '.' then none
    else if ip = [] ∧ fp = [] then none
    else some ((digitsVal ip : ℚ) + (digitsVal fp : ℚ) / (10 : ℚ) ^ fp.length)

/-- `_parse_revenue_to_number` (lines 21-38): strip `~` and `,`, trim, then
match the anchored regex `\$\s*([\d.]+)\s*(B|M|K)?` and scale by the suffix.
A group that Python's `float` would reject yields `none` (in Python this
raises; the claims only exercise well-formed numerals). -/
def _parse_revenue_to_number (rev_str : String) : Option ℚ :=
  if rev_str = "" then none
  else
    let s := stripChars (removeChar ',' (removeChar '~' rev_str.data))
    match s with
    | '$' :: rest =>
      let rest1 := rest.dropWhile Char.isWhitespace
      let grp := rest1.takeWhile (fun c => c.isDigit || c = '.')
      if grp = [] then none
      else
        let after :=
          (rest1.dropWhile (fun c => c.isDigit || c = '.')).dropWhile
            Char.isWhitespace
        let scale : ℚ :=
          match after with
          | c :: _ =>
            if c = 'B' ∨ c = 'b' then 1000000000
            else if c = 'M' ∨ c = 'm' then 1000000
            else if c = 'K' ∨ c = 'k' then 1000
            else 1
          | [] => 1
        (pyDecimal grp).map (· * scale)
    | _ => none

/-- The per-row filter of `get_companies` (lines 75-83): a row with parsed
revenue `val` matches the bracket bounds unless `val < low` or `val ≥ high`. -/
def bracketMatches (bounds : Option ℚ × Option ℚ) (val : ℚ) : Bool :=
  match bounds with
  | (low, high) =>
    if (low.map (fun l => decide (val < l))).getD false then false
    else if (high.map (fun h => decide (h ≤ val))).getD false then false
    else true

/-! ### `app/db/models.py` / `app/services/contact_service.py` — contacts -/

/-- A `Contact` row (`models.py` lines 47-68, surrogate id and timestamps
omitted), which is also the shape of the `ContactCreate` payload
(`app/schemas/contact.py`): `create_contact` builds the row via `model_dump`.
`email_confidence` is a score in `ℚ`. -/
structure Contact where
  company_id : Nat
  first_name : Option String := none
  last_name : Option String := none
  full_name : Option String := none
  title : Option String := none
  email : Option String := none
  email_confidence : ℚ := 0
  phone : Option String := none
  linkedin_url : Option String := none
  source : Option String := none
  source_url : Option String := none
deriving DecidableEq

/-- The `uq_contact_company_email` constraint (`models.py` lines 49-51): an
insert violates it when a row with the same `(company_id, email)` pair already
exists. SQL `UNIQUE` never fires on `NULL` emails. -/
def violatesContactUnique (db : List Contact) (c : Contact) : Bool :=
  match c.email with
  | none => false
  | some e =>
    db.any (fun x => decide (x.company_id = c.company_id ∧ x.email = some e))

/-- `create_contact` (`contact_service.py` lines 20-25): add the row and
commit; the commit raises (`.error`) on a unique-constraint violation. -/
def create_contact (db : List Contact) (data : Contact) :
    Except Unit (List Contact) :=
  if violatesContactUnique db data then .error () else .ok (db ++ [data])

/-- The insert loop of `_phase_enrichment` (`engine.py` lines 541-553): each
extracted contact is inserted inside `try/except`; a failed insert rolls back
(table unchanged) and the loop continues; `contacts_found` counts successes. -/
def insertContactsBatch (db : List Contact) (cs : List Contact)
    (found : Nat) : List Contact × Nat :=
  match cs with
  | [] => (db, found)
  | c :: rest =>
    match create_contact db c with
    | .ok db2 => insertContactsBatch db2 rest (found + 1)
    | .error _ => insertContactsBatch db rest found

/-- At most one contact per `(company_id, email)` pair with a non-null email. -/
def contactPairUnique (db : List Contact) : Prop :=
  db.Pairwise (fun a b => a.company_id = b.company_id → a.email = b.email →
    a.email = none)

/-! ### `app/scraper/engine.py` — location normalisation and matching -/

/-- `_STATE_NAMES` (lines 29-43): state abbreviation ↦ lowercase full name. -/
def _STATE_NAMES : List (String × String) :=
  [("AL", "alabama"), ("AK", "alaska"), ("AZ", "arizona"), ("AR", "arkansas"),
   ("CA", "california"), ("CO", "colorado"), ("CT", "connecticut"),
   ("DE", "delaware"), ("FL", "florida"), ("GA", "georgia"), ("HI", "hawaii"),
   ("ID", "idaho"), ("IL", "illinois"), ("IN", "indiana"), ("IA", "iowa"),
   ("KS", "kansas"), ("KY", "kentucky"), ("LA", "louisiana"), ("ME", "maine"),
   ("MD", "maryland"), ("MA", "massachusetts"), ("MI", "michigan"),
   ("MN", "minnesota"), ("MS", "mississippi"), ("MO", "missouri"),
   ("MT", "montana"), ("NE", "nebraska"), ("NV", "nevada"),
   ("NH", "new hampshire"), ("NJ", "new jersey"), ("NM", "new mexico"),
   ("NY", "new york"), ("NC", "north carolina"), ("ND", "north dakota"),
   ("OH", "ohio"), ("OK", "oklahoma"), ("OR", "oregon"),
   ("PA", "pennsylvania"), ("RI", "rhode island"), ("SC", "south carolina"),
   ("SD", "south dakota"), ("TN", "tennessee"), ("TX", "texas"),
   ("UT", "utah"), ("VT", "vermont"), ("VA", "virginia"),
   ("WA", "washington"), ("WV", "west virginia"), ("WI", "wisconsin"),
   ("WY", "wyoming"), ("DC", "district of columbia")]

/-- `_NAME_TO_ABBREV` (line 44): the inverse mapping, full name ↦ abbreviation. -/
def _NAME_TO_ABBREV : List (String × String) :=
  _STATE_NAMES.map (fun p => (p.2, p.1))

/-- `_CITY_ALIASES` (lines 47-55): alias ↦ (city name, state abbreviation). -/
def _CITY_ALIASES : List (String × String × String) :=
  [("nyc", ("new york", "NY")),
   ("new york city", ("new york", "NY")),
   ("la", ("los angeles", "CA")),
   ("sf", ("san francisco", "CA")),
   ("philly", ("philadelphia", "PA")),
   ("dc", ("washington", "DC")),
   ("chi", ("chicago", "IL"))]

/-- Python-set insertion, modelled as a duplicate-free list: membership is
what the matcher consumes, so insertion order is irrelevant. -/
def addSet (l : List String) (x : String) : List String :=
  if l.contains x then l else l ++ [x]

/-- `re.match(r"(.+?)\s+([A-Za-z]{2})$", s)` of line 94: the string must end
in two ASCII letters, preceded by a nonempty whitespace run, preceded by a
nonempty prefix; the lazy group makes the whitespace run maximal, and `.`
cannot cross a newline. Returns (group 1, group 2). -/
def matchCityST (s : List Char) : Option (List Char × List Char) :=
  match s.reverse with
  | b :: a :: rest =>
    if isAsciiLetter a && isAsciiLetter b then
      let w := rest.takeWhile Char.isWhitespace
      let p := (rest.drop w.length).reverse
      if w ≠ [] ∧ p ≠ [] ∧ ¬ p.contains '\n' then some (p, [a, b])
      else none
    else none
  | _ => none

/-- One iteration of the `for part in parts` loop of `_normalize_location`
(lines 72-103), threading the `(states, cities)` accumulator. -/
def normalizePart (acc : List String × List String) (part : List Char) :
    List String × List String :=
  let (states, cities) := acc
  let part_lower : String := ⟨stripChars (lowerChars part)⟩
  let part_upper : String := ⟨stripChars (upperChars part)⟩
  match (_CITY_ALIASES.lookup part_lower : Option (String × String)) with
  | some (city_name, st) => (addSet states st, addSet cities city_name)
  | none =>
    if (_STATE_NAMES.lookup part_upper).isSome then
      (addSet states part_upper, cities)
    else if h : (_NAME_TO_ABBREV.lookup part_lower).isSome then
      (addSet states ((_NAME_TO_ABBREV.lookup part_lower).get h), cities)
    else
      match matchCityST (stripChars part) with
      | some (g1, g2) =>
        let st : String := ⟨upperChars g2⟩
        if (_STATE_NAMES.lookup st).isSome then
          (addSet states st, addSet cities ⟨lowerChars (stripChars g1)⟩)
        else (states, addSet cities part_lower)
      | none => (states, addSet cities part_lower)

/-- `_normalize_location` (lines 58-105): split the filter on commas, strip
the parts, drop empties, and classify each part into matching state
abbreviations and city fragments. -/
def _normalize_location (requested : String) : List String × List String :=
  if requested = "" then ([], [])
  else
    let parts :=
      ((splitOnChar ',' requested.data).map stripChars).filter (· ≠ [])
    parts.foldl normalizePart ([], [])

/-- `_location_matches` (lines 108-142): decide whether a company's stored
city/state is compatible with the requested location filter. `none` models a
NULL column (`company_state or ""`). -/
def _location_matches (company_state company_city : Option String)
    (requested_location : String) : Bool :=
  if requested_location = "" then true
  else
    let targets := _normalize_location requested_location
    let target_states := targets.1
    let target_cities := targets.2
    let state0 := stripChars (upperChars (company_state.getD "").data)
    let city0 := stripChars (lowerChars (company_city.getD "").data)
    let city := if city0 ≠ [] ∧ city0.length > 30 then [] else city0
    let state := if state0 ≠ [] ∧ state0.length ≠ 2 then [] else state0
    if state = [] ∧ city = [] then true
    else if state ≠ [] ∧ target_states ≠ [] then
      target_states.contains ⟨state⟩
    else if city ≠ [] ∧ target_cities ≠ [] then
      target_cities.any (fun tc =>
        tc.data = city || containsSub city tc.data || containsSub tc.data city)
    else true

/-! ### `app/scraper/base.py` / `app/scraper/extractors/email_discoverer.py` -/

/-- `ScrapedContact` (`base.py` lines 5-16): all fields default to `""`/0. -/
structure ScrapedContact where
  first_name : String := ""
  last_name : String := ""
  full_name : String := ""
  title : String := ""
  email : String := ""
  email_confidence : ℚ := 0
  phone : String := ""
  linkedin_url : String := ""
  source : String := ""
  source_url : String := ""
deriving DecidableEq

/-- `PATTERNS` (`email_discoverer.py` lines 6-16): local-part template and
base confidence, in source order. -/
def PATTERNS : List (String × ℚ) :=
  [("{first}.{last}", 0.7),
   ("{first}{last}", 0.6),
   ("{f}{last}", 0.6),
   ("{first}_{last}", 0.5),
   ("{first}", 0.4),
   ("{last}", 0.3),
   ("{f}.{last}", 0.5),
   ("{last}.{first}", 0.4),
   ("{last}{f}", 0.4)]

/-- `_clean_name` (line 85-86): lowercase, keep only `a`-`z`. -/
def _clean_name (name : String) : String :=
  ⟨(lowerChars name.data).filter (fun c => 'a' ≤ c && c ≤ 'z')⟩

/-- Replacement-field lookup for `str.format`: the four keyword arguments
passed by `_apply_pattern`; any other field name raises `KeyError` (`none`). -/
def formatField (name : List Char) (first last f lastInitial : List Char) :
    Option (List Char) :=
  if name = "first".data then some first
  else if name = "last".data then some last
  else if name = "f".data then some f
  else if name = "last_initial".data then some lastInitial
  else none

/-- Python `str.format` over the pattern templates: substitute each
`\x7bname\x7d` field; unknown fields (KeyError) yield `none`. Every step
consumes at least one character of the template, so the fuel — instantiated
with the template's length by `formatChars` — never runs out. -/
def formatCharsGo (first last f lastInitial : List Char) :
    Nat → List Char → Option (List Char)
  | _, [] => some []
  | 0, _ :: _ => none
  | fuel + 1, c :: rest =>
    if c = '\x7b' then
      let name := rest.takeWhile (· ≠ '\x7d')
      let rest2 := (rest.dropWhile (· ≠ '\x7d')).drop 1
      match formatField name first last f lastInitial with
      | none => none
      | some rep =>
        match formatCharsGo first last f lastInitial fuel rest2 with
        | none => none
        | some tail => some (rep ++ tail)
    else
      match formatCharsGo first last f lastInitial fuel rest with
      | none => none
      | some tail => some (c :: tail)

/-- `str.format` scanner with sufficient fuel. -/
def formatChars (cs : List Char) (first last f lastInitial : List Char) :
    Option (List Char) :=
  formatCharsGo first last f lastInitial cs.length cs

/-- `last[0] if last else ""`, the `last_initial` keyword of `_apply_pattern`. -/
def lastInitialOf (last : String) : List Char :=
  match last.data with
  | c :: _ => [c]
  | [] => []

/-- `first[0] if first else ""`, the `f` local of `generate_email_candidates`
(line 59). -/
def firstInitialOf (first : String) : String :=
  match first.data with
  | c :: _ => ⟨[c]⟩
  | [] => ""

/-- `_apply_pattern` (lines 77-82): format the local part and append the
domain. -/
def _apply_pattern (pattern first last f : String) (domain : String) :
    Option String :=
  match formatChars pattern.data first.data last.data f.data
      (lastInitialOf last) with
  | none => none
  | some local0 => some ⟨local0 ++ '@' :: domain.data⟩

/-- One step of the `for pattern, conf in PATTERNS` loop (lines 69-72):
append the candidate unless the email is empty or already present. -/
def candidateStep (first last f domain : String)
    (cands : List (String × ℚ)) (p : String × ℚ) : List (String × ℚ) :=
  match _apply_pattern p.1 first last f domain with
  | none => cands
  | some email =>
    if email = "" then cands
    else if cands.any (fun eq => eq.1 == email) then cands
    else cands ++ [(email, p.2 * 100 * 0.6)]

/-- `generate_email_candidates` (lines 48-74): empty when either name is
missing; otherwise the detected-pattern candidate (confidence capped at 70)
followed by the deduplicated `PATTERNS` candidates, truncated to 5. -/
def generate_email_candidates (contact : ScrapedContact) (domain : String)
    (detected_pattern : Option (String × ℚ) := none) : List (String × ℚ) :=
  if contact.first_name = "" ∨ contact.last_name = "" then []
  else
    let first := _clean_name contact.first_name
    let last := _clean_name contact.last_name
    let f : String := firstInitialOf first
    let cands0 : List (String × ℚ) :=
      match detected_pattern with
      | none => []
      | some (pattern, base_conf) =>
        match _apply_pattern pattern first last f domain with
        | none => []
        | some email =>
          if email = "" then [] else [(email, min (base_conf * 100) 70)]
    ((PATTERNS.foldl (candidateStep first last f domain) cands0).take 5)

/-- Non-increasing confidence, the "sorted by descending confidence" check. -/
def descConf : List (String × ℚ) → Bool
  | [] => true
  | [_] => true
  | a :: b :: t => decide (b.2 ≤ a.2) && descConf (b :: t)

/-- The nine `PATTERNS` emails for a contact, in pattern order, as the loop
generates them before deduplication. -/
def patternEmails (contact : ScrapedContact) (domain : String) :
    List (Option String) :=
  let first := _clean_name contact.first_name
  let last := _clean_name contact.last_name
  let f : String := firstInitialOf first
  PATTERNS.map (fun p => _apply_pattern p.1 first last f domain)

/-! ### `app/scraper/serper_keys.py` — key rotation -/

/-- `SerperKeyManager` state: the parsed key list, the current index, and the
set of exhausted indices (a Python `set`, modelled as a duplicate-free list). -/
structure SerperKeyManager where
  keys : List String
  index : Nat
  exhausted : List Nat
deriving DecidableEq

/-- `__init__` (lines 18-25) after the key string has been split on commas. -/
def initKeyManager (keys : List String) : SerperKeyManager :=
  { keys := keys, index := 0, exhausted := [] }

/-- `has_keys` (lines 27-29). -/
def hasKeysOf (m : SerperKeyManager) : Bool := m.keys.length > 0

/-- `active_keys` (lines 35-37). -/
def activeKeysOf (m : SerperKeyManager) : Nat :=
  m.keys.length - m.exhausted.length

/-- Python-set insertion of an index. -/
def addNatSet (l : List Nat) (x : Nat) : List Nat :=
  if l.contains x then l else l ++ [x]

/-- The `while True` body of `_rotate` (lines 66-73): step to `(i+1) % n`,
stop at the first non-exhausted index, break (leaving the index at `start`)
when the walk returns to `start`. The loop revisits `start` after at most
`n` steps, so `n` units of fuel always suffice. -/
def rotateLoop (n : Nat) (exhausted : List Nat) (start : Nat) :
    Nat → Nat → Nat
  | _, 0 => start
  | i, fuel + 1 =>
    let i2 := (i + 1) % n
    if i2 ∉ exhausted then i2
    else if i2 = start then i2
    else rotateLoop n exhausted start i2 fuel

/-- `_rotate` (lines 61-73): no-op when every key is exhausted, otherwise
advance to the next non-exhausted index. -/
def _rotate (m : SerperKeyManager) : SerperKeyManager :=
  if m.exhausted.length ≥ m.keys.length then m
  else { m with
    index := rotateLoop m.keys.length m.exhausted m.index m.index
      m.keys.length }

/-- `get_key` (lines 39-47): `""` when the pool is empty; rotate first when
the current index is exhausted; return the key at the (possibly rotated)
index, `""` if that index is out of range. Returns the key and the manager
state after the internal rotation. -/
def get_key (m : SerperKeyManager) : String × SerperKeyManager :=
  if m.keys = [] then ("", m)
  else
    let m2 := if m.index ∈ m.exhausted then _rotate m else m
    (m2.keys.getD m2.index "", m2)

/-- `mark_exhausted` (lines 49-59): flag the current index and rotate. -/
def mark_exhausted (m : SerperKeyManager) : SerperKeyManager :=
  if m.keys = [] then m
  else _rotate { m with exhausted := addNatSet m.exhausted m.index }

/-! ### `serper_search` (`serper_keys.py` lines 114-152)

The HTTP layer is an oracle `net` giving the response of the n-th POST
attempt (`none` models a transport exception caught by the generic
`except`). The JSON payload type is abstract. Every issued request is
recorded so the theorems can speak about the arguments of retries; recursion
is fuelled because Python's recursion terminates only because each retry
exhausts one more key. -/

structure SerperResponse (α : Type) where
  status : Nat
  body : String
  json : Option α

structure SerperRequest where
  q : String
  num : Nat
  gl : String
  location : String
  key : String
deriving DecidableEq, Repr

/-- The quota test of lines 136-138: status in (400, 403, 429) and either a
"credit" indicator in the lowercased body or a 403/429 status. -/
def quotaBranch (status : Nat) (body : String) : Bool :=
  (status = 400 || status = 403 || status = 429) &&
    (containsSub (lowerChars body.data) "credit".data ||
      (status = 403 || status = 429))

/-- `serper_search` as a function of the network oracle. Returns the parsed
JSON (or `none`), the key-manager state, and every request issued, in order.
The recursive calls at lines 141 and 149 pass `(query, num, gl)` only, so
`location` reverts to its default `""` on retry. -/
def serper_search_go {α : Type} (net : Nat → Option (SerperResponse α)) :
    Nat → Nat → SerperKeyManager → String → Nat → String → String →
    Option α × SerperKeyManager × List SerperRequest
  | _, 0, m, _, _, _, _ => (none, m, [])
  | attempt, fuel + 1, m, query, num, gl, location =>
    if hasKeysOf m = false then (none, m, [])
    else if activeKeysOf m = 0 then (none, m, [])
    else
      let km := get_key m
      let key := km.1
      let m1 := km.2
      if key = "" then (none, m1, [])
      else
        let req : SerperRequest :=
          { q := query, num := num, gl := gl, location := location, key := key }
        match net attempt with
        | none => (none, m1, [req])
        | some resp =>
          if quotaBranch resp.status resp.body then
            let m2 := mark_exhausted m1
            if activeKeysOf m2 > 0 then
              let r := serper_search_go net (attempt + 1) fuel m2 query num gl ""
              (r.1, r.2.1, req :: r.2.2)
            else (none, m2, [req])
          else if resp.status ≥ 400 then
            -- raise_for_status: HTTPStatusError handler of lines 145-150
            if resp.status = 400 ∨ resp.status = 403 ∨ resp.status = 429 then
              let m2 := mark_exhausted m1
              if activeKeysOf m2 > 0 then
                let r := serper_search_go net (attempt + 1) fuel m2 query num gl ""
                (r.1, r.2.1, req :: r.2.2)
              else (none, m2, [req])
            else (none, m1, [req])
          else
            match resp.json with
            | some d => (some d, m1, [req])
            | none => (none, m1, [req])

/-- Entry point with enough fuel for every possible retry chain. -/
def serper_search {α : Type} (net : Nat → Option (SerperResponse α))
    (m : SerperKeyManager) (query : String) (num : Nat := 10)
    (gl : String := "us") (location : String := "") :
    Option α × SerperKeyManager × List SerperRequest :=
  serper_search_go net 0 (m.keys.length + 1) m query num gl location

/-! ### `app/scraper/extractors/data_enricher.py` — enrichment orchestrator

`enrich_company` drives `_do_search` (a Serper query whose aggregated
snippet text and knowledge-graph payload come from the network) and a fixed
chain of regex extractors. For the claims about the search-call budget the
network and the extractor functions are kept abstract (they are independent
pure functions of the response text), while the control flow — which fields
are filled, in which order, and when the second search fires — is the
transcription of lines 81-169. The returned list records the query of every
`_do_search` call, in order. -/

structure EnrichResult where
  estimated_revenue : String
  revenue_source : String
  employee_count : Option Nat
  employee_count_range : String
  city : String
  state : String
deriving DecidableEq

def emptyEnrichResult : EnrichResult :=
  { estimated_revenue := "", revenue_source := "", employee_count := none,
    employee_count_range := "", city := "", state := "" }

/-- The abstract environment of `enrich_company`: the knowledge-graph type
`κ`, the extractors, and the `_do_search` outcome (aggregated text and
knowledge-graph payload; a failed or empty search contributes `""` and no
payload, exactly as the `try/except` of `_do_search` leaves its
accumulators). -/
structure EnrichEnv (κ : Type) where
  extractFromKg : κ → EnrichResult → EnrichResult
  extractRevenueFromText : String → String × String
  extractEmployeesFromText : String → Option Nat × String
  extractLocationFromText : String → String × String
  fmtDiv1B : Nat → String
  fmtDiv1M : Nat → String
  fmtPlain : Nat → String
  search : String → String × Option κ

/-- The fill chain run after each search (lines 104-124 and 138-155): extract
from the knowledge graph when one was attached, then fill revenue, employee
count, and location from the aggregated text, never overwriting a field that
is already set. -/
def applySearchExtract {κ : Type} (env : EnrichEnv κ) (r0 : EnrichResult)
    (searchOut : String × Option κ) : EnrichResult :=
  let all_text := searchOut.1
  let r1 := match searchOut.2 with
    | some kg => env.extractFromKg kg r0
    | none => r0
  let r2 :=
    if r1.estimated_revenue = "" then
      let rs := env.extractRevenueFromText all_text
      if rs.1 ≠ "" then
        { r1 with estimated_revenue := rs.1, revenue_source := rs.2 }
      else r1
    else r1
  let r3 :=
    if r2.employee_count = (none : Option Nat) then
      let cr := env.extractEmployeesFromText all_text
      match cr.1 with
      | some count =>
        { r2 with employee_count := some count, employee_count_range := cr.2 }
      | none => r2
    else r2
  if r3.state = "" then
    let cs := env.extractLocationFromText all_text
    if cs.2 ≠ "" then { r3 with city := cs.1, state := cs.2 }
    else r3
  else r3

/-- The first, comprehensive query (line 100). -/
def firstQuery (company_name : String) : String :=
  "\"" ++ company_name ++ "\" revenue employees headquarters"

/-- The still-missing categories after the first search (lines 127-130), in
source order. -/
def missingFields (r : EnrichResult) : List String :=
  (if r.estimated_revenue = "" then ["revenue"] else []) ++
    (if r.state = "" then ["headquarters location"] else []) ++
      (if r.employee_count = (none : Option Nat) then ["employees"] else [])

/-- The targeted second query (line 135). -/
def secondQuery (company_name : String) (missing : List String) : String :=
  "\"" ++ company_name ++ "\" " ++ String.intercalate " " missing

/-- The result after the first search's fill chain. -/
def afterFirstSearch {κ : Type} (env : EnrichEnv κ) (company_name : String) :
    EnrichResult :=
  applySearchExtract env emptyEnrichResult (env.search (firstQuery company_name))

/-- The revenue-estimation fallback (lines 157-167): `count × $300K`,
formatted by magnitude and tagged `estimated`. -/
def applyEstimate {κ : Type} (env : EnrichEnv κ) (r : EnrichResult) :
    EnrichResult :=
  if r.estimated_revenue = "" then
    match r.employee_count with
    | some count =>
      let est := count * 300
      let s :=
        if est ≥ 1000000 then "~$" ++ env.fmtDiv1B est ++ "B"
        else if est ≥ 1000 then "~$" ++ env.fmtDiv1M est ++ "M"
        else "~$" ++ env.fmtPlain est ++ "K"
      { r with estimated_revenue := s, revenue_source := "estimated" }
    | none => r
  else r

/-- `enrich_company` (lines 81-169), returning the enrichment result and the
query of every `_do_search` call it made, in order. The `domain` argument is
accepted and unused, as in the source. -/
def enrich_company {κ : Type} (env : EnrichEnv κ) (hasKeys : Bool)
    (company_name domain : String) : EnrichResult × List String :=
  if hasKeys = false then (emptyEnrichResult, [])
  else
    let r4 := afterFirstSearch env company_name
    let missing := missingFields r4
    if missing = [] then (applyEstimate env r4, [firstQuery company_name])
    else
      let q2 := secondQuery company_name missing
      let r8 := applySearchExtract env r4 (env.search q2)
      (applyEstimate env r8, [firstQuery company_name, q2])

/-- A degenerate environment whose search finds nothing and whose extractors
never fill a field: used to exercise the orchestrator on concrete inputs. -/
def constEnrichEnv : EnrichEnv Unit :=
  { extractFromKg := fun _ r => r,
    extractRevenueFromText := fun _ => ("", ""),
    extractEmployeesFromText := fun _ => (none, ""),
    extractLocationFromText := fun _ => ("", ""),
    fmtDiv1B := fun _ => "",
    fmtDiv1M := fun _ => "",
    fmtPlain := fun _ => "",
    search := fun _ => ("", none) }

/-! ## Theorems -/

theorem create_company_sound (db : List Company) (d : CompanyCreate)
    (h : uniqueDomains db) : uniqueDomains (create_company db d).2 := by
  rcases hf : get_company_by_domain db d.domain with _ | c
  · have hall : ∀ a ∈ db, a.domain ≠ d.domain := by
      intro a ha
      have := List.find?_eq_none.mp hf a ha
      simpa using this
    unfold uniqueDomains at h ⊢
    simp only [create_company, hf]
    rw [List.pairwise_append]
    refine ⟨h, List.pairwise_singleton _ _, ?_⟩
    intro a ha b hb
    rw [List.mem_singleton] at hb
    subst hb
    exact hall a ha
  · simpa [create_company, hf] using h

theorem runCreateCompanies_sound (calls : List CompanyCreate) :
    ∀ db : List Company, uniqueDomains db →
      uniqueDomains (runCreateCompanies db calls) := by
  induction calls with
  | nil => intro db h; exact h
  | cons d rest ih =>
    intro db h
    simp only [runCreateCompanies]
    exact ih _ (create_company_sound db d h)

theorem get_company_by_domain_of_mem (db : List Company) (c : Company)
    (domain : String) (h : uniqueDomains db) (hc : c ∈ db)
    (hd : c.domain = domain) : get_company_by_domain db domain = some c := by
  induction db with
  | nil => cases hc
  | cons a t ih =>
    have hpair := List.pairwise_cons.mp h
    rw [List.mem_cons] at hc
    rcases hc with rfl | hmem
    · unfold get_company_by_domain
      rw [List.find?_cons_of_pos]
      simp [hd]
    · have hne : a.domain ≠ c.domain := hpair.1 c hmem
      unfold get_company_by_domain
      rw [List.find?_cons_of_neg]
      · exact ih hpair.2 hmem
      · simp
        rw [← hd] at *
        exact hne

/-- Claim C1: for every domain at most one `Company` row exists, for every
sequence of `create_company` calls starting from a domain-unique table; and
a `create_company` call whose domain already exists returns the stored row
unchanged and leaves the table untouched (idempotent upsert). -/
theorem C1_createCompany_unique_and_idempotent :
    ∀ (db : List Company) (calls : List CompanyCreate) (d : CompanyCreate)
      (c : Company),
      uniqueDomains db →
      uniqueDomains (runCreateCompanies db calls) ∧
      (c ∈ db → c.domain = d.domain → create_company db d = (c, db)) := by
  intro db calls d c h
  refine ⟨runCreateCompanies_sound calls db h, fun hc hd => ?_⟩
  have hfind := get_company_by_domain_of_mem db c d.domain h hc hd
  simp [create_company, hfind]

/-- Witness for C1: a duplicate `create_company` call on a concrete table
returns the stored row and inserts nothing. -/
theorem C1_createCompany_unique_and_idempotent_witness :
    uniqueDomains (runCreateCompanies []
      [{ name := "Acme", domain := "acme.com" },
       { name := "Acme Industries", domain := "acme.com" }]) ∧
    create_company [{ name := "Acme", domain := "acme.com" }]
        { name := "Acme Industries", domain := "acme.com" } =
      ({ name := "Acme", domain := "acme.com" },
       [{ name := "Acme", domain := "acme.com" }]) := by
  constructor
  · exact (C1_createCompany_unique_and_idempotent []
      [{ name := "Acme", domain := "acme.com" },
       { name := "Acme Industries", domain := "acme.com" }]
      { name := "Acme", domain := "acme.com" }
      { name := "Acme", domain := "acme.com" }
      (by simp [uniqueDomains])).1
  · exact (C1_createCompany_unique_and_idempotent
      [{ name := "Acme", domain := "acme.com" }] []
      { name := "Acme Industries", domain := "acme.com" }
      { name := "Acme", domain := "acme.com" }
      (by simp [uniqueDomains])).2 (by simp) rfl

/-- Claim C2 (code bug): the spec requires every persisted `Company` to carry
an exact employee count, a bucketed range, an estimated revenue, and a
revenue provenance tag, with the data-enrichment phase persisting them — but
the `Company` model declares only `employee_count_range`: `employee_count`,
`estimated_revenue` and `revenue_source` are not columns, the attributes the
enrichment phase reads before enriching do not all exist (so the first
status check raises `AttributeError`), and the `CompanyCreate` schema drops
the three values `_save_company` passes for them. -/
theorem C2_company_model_lacks_enrichment_columns :
    companyGetattrOk "employee_count_range" = true ∧
    companyGetattrOk "employee_count" = false ∧
    companyGetattrOk "estimated_revenue" = false ∧
    companyGetattrOk "revenue_source" = false ∧
    phaseDataEnrichmentReadAttrs.all companyGetattrOk = false ∧
    phaseDataEnrichmentWriteAttrs.all companyGetattrOk = false ∧
    companyCreateFields.contains "estimated_revenue" = false ∧
    companyCreateFields.contains "employee_count" = false ∧
    companyCreateFields.contains "revenue_source" = false := by
  decide

/-- Claim C3: for every starting status, `pause` succeeds exactly when the
status is `running`, `resume` exactly when it is `paused`, and `cancel`
errors exactly when the status is already `completed` or `cancelled`. -/
theorem C3_job_state_machine_transitions :
    ∀ status : String,
      endpointOk (pause_job (some status)) = (status == "running") ∧
      endpointOk (resume_job (some status)) = (status == "paused") ∧
      endpointOk (cancel_job (some status)) =
        !(status == "completed" || status == "cancelled") := by
  intro s
  refine ⟨?_, ?_, ?_⟩
  · by_cases h : s = "running" <;> simp [pause_job, endpointOk, h]
  · by_cases h : s = "paused" <;> simp [resume_job, endpointOk, h]
  · by_cases h1 : s = "completed" <;> by_cases h2 : s = "cancelled" <;>
      simp [cancel_job, endpointOk, h1, h2]

/-- Claim C8: the canonical revenue string `"$50M"` parses to exactly
50,000,000, and the bracket filter places that value in `50m_100m`
(inclusive lower bound) and not in `10m_50m` (exclusive upper bound). -/
theorem C8_fifty_million_boundary :
    _parse_revenue_to_number "$50M" = some 50000000 ∧
    REVENUE_BRACKETS.lookup "50m_100m" =
      some (some 50000000, some 100000000) ∧
    bracketMatches (some 50000000, some 100000000) 50000000 = true ∧
    REVENUE_BRACKETS.lookup "10m_50m" =
      some (some 10000000, some 50000000) ∧
    bracketMatches (some 10000000, some 50000000) 50000000 = false := by
  have h : _parse_revenue_to_number "$50M" =
      some (((50 : Nat) : ℚ) * 1000000) := rfl
  refine ⟨?_, by decide, by decide, by decide, by decide⟩
  rw [h]
  norm_num

/-- Claim C6: the location matcher accepts every company when the filter is
empty; accepts every company without stored location data under any filter;
rejects a company with state `CA` under the filter `Texas`; and accepts a
company with city `New York` under the filter `NYC`. -/
theorem C6_location_matcher_cases :
    (∀ s c : Option String, _location_matches s c "" = true) ∧
    (∀ f : String, _location_matches none none f = true) ∧
    _location_matches (some "CA") none "Texas" = false ∧
    _location_matches none (some "New York") "NYC" = true := by
  refine ⟨?_, ?_, by decide, by decide⟩
  · intro s c
    simp [_location_matches]
  · intro f
    by_cases h : f = "" <;>
      simp [_location_matches, h, stripChars, upperChars, lowerChars]

theorem create_contact_ok_unique (db : List Contact) (c : Contact)
    (h : contactPairUnique db) (hv : violatesContactUnique db c = false) :
    contactPairUnique (db ++ [c]) := by
  unfold contactPairUnique at h ⊢
  rw [List.pairwise_append]
  refine ⟨h, List.pairwise_singleton _ _, ?_⟩
  intro a ha b hb
  rw [List.mem_singleton] at hb
  intro hcid hemail
  rw [hb] at hcid hemail
  cases he : c.email with
  | none => rw [hemail, he]
  | some e =>
    exfalso
    have hv2 : violatesContactUnique db c = true := by
      unfold violatesContactUnique
      rw [he, List.any_eq_true]
      exact ⟨a, ha, by rw [decide_eq_true_eq]; exact ⟨hcid, hemail.trans he⟩⟩
    simp [hv] at hv2

/-- The batch insert loop preserves the per-pair uniqueness invariant. -/
theorem insertContactsBatch_unique (cs : List Contact) :
    ∀ (db : List Contact) (found : Nat), contactPairUnique db →
      contactPairUnique (insertContactsBatch db cs found).1 := by
  induction cs with
  | nil => intro db found h; exact h
  | cons c rest ih =>
    intro db found h
    cases hv : violatesContactUnique db c with
    | true => simp only [insertContactsBatch, create_contact, hv]; exact ih _ _ h
    | false =>
      simp only [insertContactsBatch, create_contact, hv]
      exact ih _ _ (create_contact_ok_unique db c h hv)

/-- Claim C4: for every company and non-null email at most one `Contact` row
exists after the contact-enrichment insert loop, and a duplicate
`(company_id, email)` insert is swallowed: the table is left exactly as if
the duplicate had been skipped, and the rest of the batch still runs. -/
theorem C4_contact_unique_and_duplicate_noop :
    ∀ (db cs : List Contact) (c : Contact) (found : Nat),
      contactPairUnique db →
      contactPairUnique (insertContactsBatch db cs found).1 ∧
      (violatesContactUnique db c = true →
        insertContactsBatch db (c :: cs) found =
          insertContactsBatch db cs found) := by
  intro db cs c found h
  refine ⟨insertContactsBatch_unique cs db found h, fun hv => ?_⟩
  simp [insertContactsBatch, create_contact, hv]

/-- Witness for C4: inserting a batch containing an exact duplicate of the
stored contact keeps the table duplicate-free and processes the rest. -/
theorem C4_contact_unique_and_duplicate_noop_witness :
    contactPairUnique (insertContactsBatch
      [{ company_id := 1, email := some "jane@acme.com" }]
      [{ company_id := 1, email := some "jane@acme.com" },
       { company_id := 1, email := some "bob@acme.com" }] 0).1 ∧
    insertContactsBatch [{ company_id := 1, email := some "jane@acme.com" }]
        [{ company_id := 1, email := some "jane@acme.com" },
         { company_id := 1, email := some "bob@acme.com" }] 0 =
      insertContactsBatch [{ company_id := 1, email := some "jane@acme.com" }]
        [{ company_id := 1, email := some "bob@acme.com" }] 0 := by
  constructor
  · exact (C4_contact_unique_and_duplicate_noop
      [{ company_id := 1, email := some "jane@acme.com" }]
      [{ company_id := 1, email := some "jane@acme.com" },
       { company_id := 1, email := some "bob@acme.com" }]
      { company_id := 1, email := some "jane@acme.com" } 0
      (by simp [contactPairUnique])).1
  · exact (C4_contact_unique_and_duplicate_noop
      [{ company_id := 1, email := some "jane@acme.com" }]
      [{ company_id := 1, email := some "bob@acme.com" }]
      { company_id := 1, email := some "jane@acme.com" } 0
      (by simp [contactPairUnique])).2 (by decide)

/-- Claim C5: `enrich_company` issues at most two searches; when the key pool
is non-empty it always issues the comprehensive first query, issues the
targeted second query exactly when revenue, employee count, or state is
still missing after the first search, and issues no second query otherwise. -/
theorem C5_enrich_company_search_budget :
    ∀ (κ : Type) (env : EnrichEnv κ) (hasKeys : Bool) (name domain : String),
      (enrich_company env hasKeys name domain).2.length ≤ 2 ∧
      (hasKeys = true →
        (enrich_company env hasKeys name domain).2.head? =
          some (firstQuery name)) ∧
      (hasKeys = true → missingFields (afterFirstSearch env name) = [] →
        (enrich_company env hasKeys name domain).2 = [firstQuery name]) ∧
      (hasKeys = true → missingFields (afterFirstSearch env name) ≠ [] →
        (enrich_company env hasKeys name domain).2 =
          [firstQuery name,
           secondQuery name (missingFields (afterFirstSearch env name))]) := by
  intro κ env hk name domain
  cases hk with
  | false => simp [enrich_company]
  | true =>
    by_cases hm : missingFields (afterFirstSearch env name) = [] <;>
      simp [enrich_company, hm]

/-- Witness for C5: with an environment that finds nothing, everything is
still missing after the first search and exactly two queries are issued. -/
theorem C5_enrich_company_search_budget_witness :
    (enrich_company constEnrichEnv true "Acme" "acme.com").2.length ≤ 2 ∧
    (enrich_company constEnrichEnv true "Acme" "acme.com").2 =
      [firstQuery "Acme",
       secondQuery "Acme" (missingFields (afterFirstSearch constEnrichEnv "Acme"))] := by
  have h := C5_enrich_company_search_budget Unit constEnrichEnv true
    "Acme" "acme.com"
  exact ⟨h.1, h.2.2.2 rfl (by decide)⟩

theorem _apply_pattern_ne_empty {pattern first last f domain e : String}
    (h : _apply_pattern pattern first last f domain = some e) : e ≠ "" := by
  unfold _apply_pattern at h
  cases hf : formatChars pattern.data first.data last.data f.data
      (lastInitialOf last) with
  | none => rw [hf] at h; cases h
  | some l =>
    rw [hf] at h
    injection h with h2
    subst h2
    intro he
    have hdata : l ++ '@' :: domain.data = [] := congrArg String.data he
    simp at hdata

theorem candidateFold_of_distinct (first last f domain : String) :
    ∀ (ps : List (String × ℚ)) (acc : List (String × ℚ)),
      (ps.map (fun p => _apply_pattern p.1 first last f domain)).Pairwise
        (· ≠ ·) →
      (∀ p ∈ ps, ∀ x ∈ acc,
        some x.1 ≠ _apply_pattern p.1 first last f domain) →
      ps.foldl (candidateStep first last f domain) acc =
        acc ++ ps.filterMap (fun p =>
          (_apply_pattern p.1 first last f domain).map
            (fun e => (e, p.2 * 100 * 0.6))) := by
  intro ps
  induction ps with
  | nil => intro acc _ _; simp
  | cons p rest ih =>
    intro acc hdist hfresh
    rw [List.map_cons, List.pairwise_cons] at hdist
    obtain ⟨hhead, htail⟩ := hdist
    cases hap : _apply_pattern p.1 first last f domain with
    | none =>
      have hstep : candidateStep first last f domain acc p = acc := by
        simp [candidateStep, hap]
      rw [List.foldl_cons, hstep, List.filterMap_cons, hap]
      exact ih acc htail (fun q hq => hfresh q (List.mem_cons_of_mem _ hq))
    | some e =>
      have hne : e ≠ "" := _apply_pattern_ne_empty hap
      have hnotin : (acc.any (fun eq => eq.1 == e)) = false := by
        rw [List.any_eq_false]
        intro x hx
        have hx2 := hfresh p (List.mem_cons_self _ _) x hx
        rw [hap] at hx2
        simp only [ne_eq, Option.some.injEq] at hx2
        simpa using hx2
      have hstep : candidateStep first last f domain acc p =
          acc ++ [(e, p.2 * 100 * 0.6)] := by
        simp [candidateStep, hap, hne, hnotin]
      rw [List.foldl_cons, hstep]
      rw [ih (acc ++ [(e, p.2 * 100 * 0.6)]) htail ?fresh2]
      · rw [List.filterMap_cons, hap]
        simp
      case fresh2 =>
        intro q hq x hx
        rcases List.mem_append.mp hx with hx1 | hx2
        · exact hfresh q (List.mem_cons_of_mem _ hq) x hx1
        · rw [List.mem_singleton] at hx2
          subst hx2
          have hq2 := hhead (_apply_pattern q.1 first last f domain)
            (List.mem_map_of_mem _ hq)
          rw [hap] at hq2
          exact hq2

theorem patterns_apply_isSome (first last f domain : String) :
    ∀ p ∈ PATTERNS, (_apply_pattern p.1 first last f domain).isSome = true := by
  intro p hp
  fin_cases hp <;> rfl

/-- Claim C7 (amended): candidate generation returns the empty list whenever
the contact is missing a first or last name; and when no pattern was
detected and the nine pattern emails are pairwise distinct — so that
deduplication removes nothing — the returned candidates are sorted in
descending confidence order. (Deduplication of coinciding pattern emails can
promote a later, higher-confidence pattern past the `\x7blast\x7d` pattern, see the
counterexample.) -/
theorem C7_email_candidates_amended :
    (∀ (contact : ScrapedContact) (domain : String)
        (detected : Option (String × ℚ)),
      contact.first_name = "" ∨ contact.last_name = "" →
      generate_email_candidates contact domain detected = []) ∧
    (∀ (contact : ScrapedContact) (domain : String),
      (patternEmails contact domain).Pairwise (· ≠ ·) →
      descConf (generate_email_candidates contact domain none) = true) := by
  constructor
  · intro contact domain detected h
    simp [generate_email_candidates, h]
  · intro contact domain hdist
    by_cases h1 : contact.first_name = ""
    · simp [generate_email_candidates, h1, descConf]
    by_cases h2 : contact.last_name = ""
    · simp [generate_email_candidates, h2, descConf]
    have hgen : generate_email_candidates contact domain none =
        (PATTERNS.foldl (candidateStep (_clean_name contact.first_name)
          (_clean_name contact.last_name)
          (firstInitialOf (_clean_name contact.first_name)) domain) []).take 5 := by
      simp [generate_email_candidates, h1, h2]
    rw [hgen]
    have hdist2 : (PATTERNS.map (fun p => _apply_pattern p.1
        (_clean_name contact.first_name) (_clean_name contact.last_name)
        (firstInitialOf (_clean_name contact.first_name)) domain)).Pairwise
        (· ≠ ·) := hdist
    rw [candidateFold_of_distinct _ _ _ _ PATTERNS [] hdist2
      (by intro p hp x hx; cases hx)]
    have hs := patterns_apply_isSome (_clean_name contact.first_name)
      (_clean_name contact.last_name)
      (firstInitialOf (_clean_name contact.first_name)) domain
    obtain ⟨e1, he1⟩ := Option.isSome_iff_exists.mp
      (hs ("{first}.{last}", 0.7) (by simp [PATTERNS]))
    obtain ⟨e2, he2⟩ := Option.isSome_iff_exists.mp
      (hs ("{first}{last}", 0.6) (by simp [PATTERNS]))
    obtain ⟨e3, he3⟩ := Option.isSome_iff_exists.mp
      (hs ("{f}{last}", 0.6) (by simp [PATTERNS]))
    obtain ⟨e4, he4⟩ := Option.isSome_iff_exists.mp
      (hs ("{first}_{last}", 0.5) (by simp [PATTERNS]))
    obtain ⟨e5, he5⟩ := Option.isSome_iff_exists.mp
      (hs ("{first}", 0.4) (by simp [PATTERNS]))
    obtain ⟨e6, he6⟩ := Option.isSome_iff_exists.mp
      (hs ("{last}", 0.3) (by simp [PATTERNS]))
    simp only [PATTERNS, List.filterMap_cons, he1, he2, he3, he4, he5, he6,
      Option.map_some, List.nil_append]
    have t1 : ((0.6 : ℚ) * 100 * 0.6 ≤ 0.7 * 100 * 0.6) := by norm_num
    have t2 : ((0.6 : ℚ) * 100 * 0.6 ≤ 0.6 * 100 * 0.6) := le_refl _
    have t3 : ((0.5 : ℚ) * 100 * 0.6 ≤ 0.6 * 100 * 0.6) := by norm_num
    have t4 : ((0.4 : ℚ) * 100 * 0.6 ≤ 0.5 * 100 * 0.6) := by norm_num
    simp [descConf, t1, t2, t3, t4]

/-- Witness for C7: the Jane Doe contact has nine pairwise-distinct pattern
emails and a missing-name contact yields no candidates. -/
theorem C7_email_candidates_amended_witness :
    generate_email_candidates { first_name := "", last_name := "Doe" }
      "acme.com" none = [] ∧
    descConf (generate_email_candidates
      { first_name := "Jane", last_name := "Doe" } "acme.com" none) = true := by
  constructor
  · exact C7_email_candidates_amended.1
      { first_name := "", last_name := "Doe" } "acme.com" none (Or.inl rfl)
  · exact C7_email_candidates_amended.2
      { first_name := "Jane", last_name := "Doe" } "acme.com" (by decide)

/-- Claim C7 counterexample: a contact with a one-letter first name and a
last name containing no letters has both names present, yet deduplication of
coinciding pattern emails yields confidences (42, 36, 30, 18, 24) — not
descending. -/
theorem C7_counterexample_unsorted_candidates :
    ({ first_name := "J", last_name := "#" } : ScrapedContact).first_name
      ≠ "" ∧
    ({ first_name := "J", last_name := "#" } : ScrapedContact).last_name
      ≠ "" ∧
    (generate_email_candidates { first_name := "J", last_name := "#" }
        "acme.com" none).map Prod.fst =
      ["j.@acme.com", "j@acme.com", "j_@acme.com", "@acme.com",
       ".j@acme.com"] ∧
    descConf (generate_email_candidates { first_name := "J", last_name := "#" }
        "acme.com" none) = false := by
  refine ⟨by decide, by decide, by decide, ?_⟩
  have hlist : generate_email_candidates
      { first_name := "J", last_name := "#" } "acme.com" none =
      [("j.@acme.com", 0.7 * 100 * 0.6), ("j@acme.com", 0.6 * 100 * 0.6),
       ("j_@acme.com", 0.5 * 100 * 0.6), ("@acme.com", 0.3 * 100 * 0.6),
       (".j@acme.com", 0.4 * 100 * 0.6)] := rfl
  have hbad : ¬ ((0.4 : ℚ) * 100 * 0.6 ≤ 0.3 * 100 * 0.6) := by norm_num
  rw [hlist]
  simp [descConf, hbad]

theorem rotateLoop_lt (n : Nat) (exh : List Nat) (start : Nat) (hn : 0 < n)
    (hstart : start < n) :
    ∀ (fuel i : Nat), rotateLoop n exh start i fuel < n := by
  intro fuel
  induction fuel with
  | zero => intro i; exact hstart
  | succ fuel ih =>
    intro i
    simp only [rotateLoop]
    split
    · exact Nat.mod_lt _ hn
    · split
      · exact Nat.mod_lt _ hn
      · exact ih _

theorem rotateLoop_spec (n : Nat) (exh : List Nat) (start : Nat) :
    ∀ (fuel i k : Nat), 1 ≤ k → k ≤ fuel →
      (i + k) % n ∉ exh →
      (∀ t, 1 ≤ t → t < k → (i + t) % n ≠ start) →
      rotateLoop n exh start i fuel ∉ exh := by
  intro fuel
  induction fuel with
  | zero => intro i k hk1 hk0 _ _; omega
  | succ fuel ih =>
    intro i k hk1 hkf hktarget havoid
    simp only [rotateLoop]
    by_cases hmem : ((i + 1) % n) ∈ exh
    · rw [if_neg (by simpa using hmem)]
      have hk2 : 2 ≤ k := by
        rcases Nat.lt_or_ge k 2 with h | h
        · exfalso
          have : k = 1 := by omega
          rw [this] at hktarget
          exact hktarget hmem
        · exact h
      rw [if_neg (havoid 1 le_rfl (by omega))]
      apply ih ((i + 1) % n) (k - 1) (by omega) (by omega)
      · have harith : ((i + 1) % n + (k - 1)) % n = (i + k) % n := by
          rw [Nat.mod_add_mod]
          congr 1
          omega
        rw [harith]
        exact hktarget
      · intro t ht1 htk
        have harith : ((i + 1) % n + t) % n = (i + (t + 1)) % n := by
          rw [Nat.mod_add_mod]
          congr 1
          omega
        rw [harith]
        exact havoid (t + 1) (by omega) (by omega)
    · rw [if_pos (by simpa using hmem)]
      exact hmem

/-- Claim C9 (amended): `get_key` returns a non-exhausted key — rotating
forward past exhausted indices — whenever at least one key remains
non-exhausted; when every key has been marked exhausted it returns the key
at the current index (an exhausted key), not the empty string; the empty
string is returned only for an empty key pool. -/
theorem C9_get_key_amended :
    ∀ m : SerperKeyManager,
      (m.keys = [] → (get_key m).1 = "") ∧
      (m.keys ≠ [] → m.index < m.keys.length → m.exhausted.Nodup →
        (∀ e ∈ m.exhausted, e < m.keys.length) →
        ((∃ j, j < m.keys.length ∧ j ∉ m.exhausted) →
          ∃ j, ∃ h : j < m.keys.length, j ∉ m.exhausted ∧
            (get_key m).1 = m.keys.get ⟨j, h⟩) ∧
        ((∀ i < m.keys.length, i ∈ m.exhausted) →
          (get_key m).1 = m.keys.getD m.index "")) := by
  intro m
  constructor
  · intro h
    simp [get_key, h]
  intro hne hidx hnodup hrange
  have hn : 0 < m.keys.length := List.length_pos.mpr hne
  constructor
  · rintro ⟨j, hj, hjex⟩
    by_cases hcur : m.index ∈ m.exhausted
    · -- the current index is exhausted: get_key rotates
      have hjne : j ≠ m.index := fun h => hjex (h ▸ hcur)
      have hlen : m.exhausted.length < m.keys.length := by
        by_contra hge
        push_neg at hge
        have hsub : m.exhausted ⊆ List.range m.keys.length := by
          intro e he
          rw [List.mem_range]
          exact hrange e he
        have hperm := (List.subperm_of_subset hnodup hsub).perm_of_length_le
          (by simpa using hge)
        exact hjex (hperm.symm.subset (List.mem_range.mpr hj))
      obtain ⟨k0, hk01, hk0n, hk0target⟩ :
          ∃ k0, 1 ≤ k0 ∧ k0 < m.keys.length ∧
            (m.index + k0) % m.keys.length = j := by
        rcases Nat.lt_or_ge m.index j with hlt | hge
        · exact ⟨j - m.index, by omega, by omega, by
            rw [Nat.mod_eq_of_lt (by omega)]; omega⟩
        · have hjlt : j < m.index := by omega
          refine ⟨m.keys.length - m.index + j, by omega, by omega, ?_⟩
          have harith : m.index + (m.keys.length - m.index + j) =
              m.keys.length + j := by omega
          rw [harith, Nat.add_mod_left, Nat.mod_eq_of_lt hj]
      have havoid : ∀ t, 1 ≤ t → t < k0 →
          (m.index + t) % m.keys.length ≠ m.index := by
        intro t ht1 htk heq
        have htn : t < m.keys.length := by omega
        rcases Nat.lt_or_ge (m.index + t) m.keys.length with hlt | hge2
        · rw [Nat.mod_eq_of_lt hlt] at heq
          omega
        · have hmod : (m.index + t) % m.keys.length =
              m.index + t - m.keys.length := by
            rw [Nat.mod_eq_sub_mod hge2, Nat.mod_eq_of_lt (by omega)]
          rw [hmod] at heq
          omega
      have hloop := rotateLoop_spec m.keys.length m.exhausted m.index
        m.keys.length m.index k0 hk01 (by omega)
        (by rw [hk0target]; exact hjex) havoid
      have hlt := rotateLoop_lt m.keys.length m.exhausted m.index hn hidx
        m.keys.length m.index
      refine ⟨rotateLoop m.keys.length m.exhausted m.index m.index
        m.keys.length, hlt, hloop, ?_⟩
      simp only [get_key, if_neg hne, if_pos hcur, _rotate,
        if_neg (by omega : ¬ m.exhausted.length ≥ m.keys.length)]
      rw [List.getD_eq_getElem?_getD, List.getElem?_eq_getElem hlt]
      rfl
    · -- current index already non-exhausted: no rotation
      refine ⟨m.index, hidx, hcur, ?_⟩
      simp only [get_key, if_neg hne, if_neg hcur]
      rw [List.getD_eq_getElem?_getD, List.getElem?_eq_getElem hidx]
      rfl
  · intro hall
    have hcur : m.index ∈ m.exhausted := hall _ hidx
    have hlen : m.keys.length ≤ m.exhausted.length := by
      have hsub : List.range m.keys.length ⊆ m.exhausted := by
        intro e he
        exact hall e (List.mem_range.mp he)
      have := (List.subperm_of_subset (List.nodup_range _) hsub).length_le
      simpa using this
    simp [get_key, if_neg hne, if_pos hcur, _rotate, hlen]

/-- Witness for C9: with keys `a`, `b` and index 0 exhausted, `get_key`
returns the non-exhausted key `b`. -/
theorem C9_get_key_amended_witness :
    ∃ j, ∃ h : j < (SerperKeyManager.mk ["a", "b"] 0 [0]).keys.length,
      j ∉ (SerperKeyManager.mk ["a", "b"] 0 [0]).exhausted ∧
      (get_key (SerperKeyManager.mk ["a", "b"] 0 [0])).1 =
        (SerperKeyManager.mk ["a", "b"] 0 [0]).keys.get ⟨j, h⟩ :=
  ((C9_get_key_amended (SerperKeyManager.mk ["a", "b"] 0 [0])).2
    (by decide) (by decide) (by decide) (by decide)).1
    ⟨1, by decide, by decide⟩

/-- Claim C9 counterexample: with the single key `key1` marked exhausted —
every index in the pool exhausted — `get_key` returns `"key1"`, not the
empty string the claim requires. -/
theorem C9_counterexample_exhausted_pool_returns_key :
    (mark_exhausted (initKeyManager ["key1"])).keys = ["key1"] ∧
    (mark_exhausted (initKeyManager ["key1"])).exhausted = [0] ∧
    (get_key (mark_exhausted (initKeyManager ["key1"]))).1 = "key1" ∧
    (get_key (mark_exhausted (initKeyManager ["key1"]))).1 ≠ "" := by
  refine ⟨by decide, by decide, by decide, by decide⟩

theorem serper_go_all_empty_location {α : Type}
    (net : Nat → Option (SerperResponse α)) :
    ∀ (fuel attempt : Nat) (m : SerperKeyManager) (q : String) (num : Nat)
      (gl : String),
      ((serper_search_go net attempt fuel m q num gl "").2.2).all
        (fun r => r.location == "") = true := by
  intro fuel
  induction fuel with
  | zero => intro attempt m q num gl; rfl
  | succ fuel ih =>
    intro attempt m q num gl
    simp only [serper_search_go]
    by_cases h1 : hasKeysOf m = false
    · simp [h1]
    rw [if_neg h1]
    by_cases h2 : activeKeysOf m = 0
    · simp [h2]
    rw [if_neg h2]
    by_cases h3 : (get_key m).1 = ""
    · simp [h3]
    rw [if_neg h3]
    cases hnet : net attempt with
    | none => simp
    | some resp =>
      dsimp only
      by_cases hq : quotaBranch resp.status resp.body = true
      · rw [if_pos hq]
        by_cases ha : activeKeysOf (mark_exhausted (get_key m).2) > 0
        · rw [if_pos ha]
          simp only [List.all_cons, ih, Bool.and_true]
          rfl
        · rw [if_neg ha]; rfl
      · rw [if_neg hq]
        by_cases h4 : resp.status ≥ 400
        · rw [if_pos h4]
          by_cases h5 : resp.status = 400 ∨ resp.status = 403 ∨
              resp.status = 429
          · rw [if_pos h5]
            by_cases ha : activeKeysOf (mark_exhausted (get_key m).2) > 0
            · rw [if_pos ha]
              simp only [List.all_cons, ih, Bool.and_true]
              rfl
            · rw [if_neg ha]; rfl
          · rw [if_neg h5]; rfl
        · rw [if_neg h4]
          cases resp.json <;> rfl

theorem serper_go_tail_empty_location {α : Type}
    (net : Nat → Option (SerperResponse α)) :
    ∀ (fuel attempt : Nat) (m : SerperKeyManager) (q : String) (num : Nat)
      (gl location : String),
      (((serper_search_go net attempt fuel m q num gl location).2.2).drop
        1).all (fun r => r.location == "") = true := by
  intro fuel
  cases fuel with
  | zero => intro attempt m q num gl location; rfl
  | succ fuel =>
    intro attempt m q num gl location
    simp only [serper_search_go]
    by_cases h1 : hasKeysOf m = false
    · simp [h1]
    rw [if_neg h1]
    by_cases h2 : activeKeysOf m = 0
    · simp [h2]
    rw [if_neg h2]
    by_cases h3 : (get_key m).1 = ""
    · simp [h3]
    rw [if_neg h3]
    cases hnet : net attempt with
    | none => simp
    | some resp =>
      dsimp only
      by_cases hq : quotaBranch resp.status resp.body = true
      · rw [if_pos hq]
        by_cases ha : activeKeysOf (mark_exhausted (get_key m).2) > 0
        · rw [if_pos ha]
          simpa using serper_go_all_empty_location net fuel (attempt + 1)
            (mark_exhausted (get_key m).2) q num gl
        · rw [if_neg ha]; rfl
      · rw [if_neg hq]
        by_cases h4 : resp.status ≥ 400
        · rw [if_pos h4]
          by_cases h5 : resp.status = 400 ∨ resp.status = 403 ∨
              resp.status = 429
          · rw [if_pos h5]
            by_cases ha : activeKeysOf (mark_exhausted (get_key m).2) > 0
            · rw [if_pos ha]
              simpa using serper_go_all_empty_location net fuel (attempt + 1)
                (mark_exhausted (get_key m).2) q num gl
            · rw [if_neg ha]; rfl
          · rw [if_neg h5]; rfl
        · rw [if_neg h4]
          cases resp.json <;> rfl

/-- Claim C10: whenever `serper_search` retries with the next key after a
quota/auth response, the retried request is issued with the default empty
location rather than the caller's original location; concretely, a 429 on
the first key with location `New York` yields a second request whose
location is empty. -/
theorem C10_retry_uses_default_location :
    (∀ (α : Type) (net : Nat → Option (SerperResponse α))
        (m : SerperKeyManager) (query : String) (num : Nat)
        (gl location : String),
      (((serper_search net m query num gl location).2.2).drop 1).all
        (fun r => r.location == "") = true) ∧
    ((serper_search
        (fun n => if n = 0 then some ⟨429, "", none⟩
          else some ⟨200, "", some ()⟩ : Nat → Option (SerperResponse Unit))
        (initKeyManager ["k1", "k2"]) "acme" 10 "us" "New York").2.2).map
      (fun r => r.location) = ["New York", ""] := by
  constructor
  · intro α net m query num gl location
    exact serper_go_tail_empty_location net (m.keys.length + 1) 0 m query
      num gl location
  · decide

end Scraper
